import Mathlib

/-!
Verification of the recommendation-aggregation core and pipeline orchestration
of the financial-analyst multi-agent backend.

The upstream payload dictionaries are embedded as records of optional fields,
one field per dictionary key the strategy agent reads; a `none` field models a
missing key, and every `dict.get(key, default)` in the source becomes
`Option.getD`.  Python float literals (0.6, 1.1, …) are embedded as exact
rationals except where the overall-score computation is concerned, where the
IEEE-754 double-precision evaluation is modelled exactly (`fl` below).
-/

namespace FinAgent

/-! ### Upstream payload records (the dictionary fields the strategy agent reads) -/

structure BasicInfo where
  name : Option String
deriving DecidableEq

structure PriceData where
  current_price : Option ℚ
  volume : Option ℚ
  avg_volume : Option ℚ
deriving DecidableEq

structure MarketValuation where
  pe_ratio : Option ℚ
deriving DecidableEq

structure Week52 where
  position_percent : Option ℚ
deriving DecidableEq

structure MarketReturns where
  ytd : Option ℚ
  one_month : Option ℚ
deriving DecidableEq

structure MarketPayload where
  basic_info : Option BasicInfo
  price_data : Option PriceData
  valuation : Option MarketValuation
  week_52 : Option Week52
  returns : Option MarketReturns
deriving DecidableEq

structure ProfitabilityRec where
  assessment : Option String
  roe : Option ℚ
deriving DecidableEq

structure ValuationRec where
  assessment : Option String
  pe_ratio : Option ℚ
deriving DecidableEq

structure HealthRec where
  assessment : Option String
  debt_to_equity : Option ℚ
deriving DecidableEq

structure GrowthRec where
  assessment : Option String
  revenue_growth : Option ℚ
deriving DecidableEq

structure FundData where
  profitability : Option ProfitabilityRec
  valuation : Option ValuationRec
  financial_health : Option HealthRec
  growth : Option GrowthRec
deriving DecidableEq

structure RsiRec where
  condition : Option String
  current : Option ℚ
deriving DecidableEq

structure MacdRec where
  signal_type : Option String
deriving DecidableEq

structure AtrRec where
  volatility : Option String
deriving DecidableEq

structure IndicatorsRec where
  rsi : Option RsiRec
  macd : Option MacdRec
  atr : Option AtrRec
deriving DecidableEq

structure TrendRec where
  overall_trend : Option String
deriving DecidableEq

structure SignalsRec where
  overall_signal : Option String
  bullish_signals : Option (List String)
  bearish_signals : Option (List String)
deriving DecidableEq

structure SRRec where
  nearest_support : Option ℚ
  nearest_resistance : Option ℚ
deriving DecidableEq

structure TechData where
  trend : Option TrendRec
  indicators : Option IndicatorsRec
  signals : Option SignalsRec
  support_resistance : Option SRRec
deriving DecidableEq

/-- The standard result envelope `{agent, data, insight, confidence, status, error?}`
produced by `BaseAgent.format_output` / `format_error`; the strategy agent and the
orchestrator only read `data`, `status`, `error` and `confidence`. -/
structure Env (α : Type) where
  data : Option α
  status : Option String
  error : Option String
  confidence : Option ℚ
deriving DecidableEq

def emptyBasicInfo : BasicInfo := ⟨none⟩
def emptyPriceData : PriceData := ⟨none, none, none⟩
def emptyMarketValuation : MarketValuation := ⟨none⟩
def emptyWeek52 : Week52 := ⟨none⟩
def emptyMarketReturns : MarketReturns := ⟨none, none⟩
def emptyMarketPayload : MarketPayload := ⟨none, none, none, none, none⟩
def emptyProfitabilityRec : ProfitabilityRec := ⟨none, none⟩
def emptyValuationRec : ValuationRec := ⟨none, none⟩
def emptyHealthRec : HealthRec := ⟨none, none⟩
def emptyGrowthRec : GrowthRec := ⟨none, none⟩
def emptyFundData : FundData := ⟨none, none, none, none⟩
def emptyRsiRec : RsiRec := ⟨none, none⟩
def emptyMacdRec : MacdRec := ⟨none⟩
def emptyAtrRec : AtrRec := ⟨none⟩
def emptyIndicatorsRec : IndicatorsRec := ⟨none, none, none⟩
def emptyTrendRec : TrendRec := ⟨none⟩
def emptySignalsRec : SignalsRec := ⟨none, none, none⟩
def emptySRRec : SRRec := ⟨none, none⟩
def emptyTechData : TechData := ⟨none, none, none, none⟩

/-- An envelope with no data, status, error or confidence fields. -/
def emptyEnv {α : Type} : Env α := ⟨none, none, none, none⟩

/-! ### Extracted signal records (`_extract_*_signals`) -/

structure MarketSignals where
  current_price : ℚ
  volume_trend : String
  pe_ratio : Option ℚ
  position_in_52w : ℚ
  ytd_return : ℚ
  momentum : String
deriving DecidableEq

structure FundamentalSignals where
  profitability : String
  valuation : String
  financial_health : String
  growth : String
  roe : Option ℚ
  pe_ratio : Option ℚ
  debt_equity : Option ℚ
  revenue_growth : Option ℚ
deriving DecidableEq

structure TechnicalSignals where
  trend : String
  rsi_condition : String
  macd_signal : String
  overall_signal : String
  bullish_signals : List String
  bearish_signals : List String
  support : Option ℚ
  resistance : Option ℚ
deriving DecidableEq

/-- `StrategyAgent._extract_market_signals`. -/
def extract_market_signals (d : Env MarketPayload) : MarketSignals :=
  let market := d.data.getD emptyMarketPayload
  let price_data := market.price_data.getD emptyPriceData
  let valuation := market.valuation.getD emptyMarketValuation
  let week_52 := market.week_52.getD emptyWeek52
  let returns := market.returns.getD emptyMarketReturns
  { current_price := price_data.current_price.getD 0
    volume_trend :=
      if price_data.volume.getD 0 > price_data.avg_volume.getD 1 then "high" else "low"
    pe_ratio := valuation.pe_ratio
    position_in_52w := week_52.position_percent.getD 50
    ytd_return := returns.ytd.getD 0
    momentum := if returns.one_month.getD 0 > 0 then "positive" else "negative" }

/-- `StrategyAgent._extract_fundamental_signals`. -/
def extract_fundamental_signals (d : Env FundData) : FundamentalSignals :=
  let fund := d.data.getD emptyFundData
  { profitability := (fund.profitability.getD emptyProfitabilityRec).assessment.getD "Unknown"
    valuation := (fund.valuation.getD emptyValuationRec).assessment.getD "Unknown"
    financial_health := (fund.financial_health.getD emptyHealthRec).assessment.getD "Unknown"
    growth := (fund.growth.getD emptyGrowthRec).assessment.getD "Unknown"
    roe := (fund.profitability.getD emptyProfitabilityRec).roe
    pe_ratio := (fund.valuation.getD emptyValuationRec).pe_ratio
    debt_equity := (fund.financial_health.getD emptyHealthRec).debt_to_equity
    revenue_growth := (fund.growth.getD emptyGrowthRec).revenue_growth }

/-- `StrategyAgent._extract_technical_signals`. -/
def extract_technical_signals (d : Env TechData) : TechnicalSignals :=
  let tech := d.data.getD emptyTechData
  let indicators := tech.indicators.getD emptyIndicatorsRec
  let signals := tech.signals.getD emptySignalsRec
  { trend := (tech.trend.getD emptyTrendRec).overall_trend.getD "Neutral"
    rsi_condition := (indicators.rsi.getD emptyRsiRec).condition.getD "Neutral"
    macd_signal := (indicators.macd.getD emptyMacdRec).signal_type.getD "Neutral"
    overall_signal := signals.overall_signal.getD "Neutral"
    bullish_signals := signals.bullish_signals.getD []
    bearish_signals := signals.bearish_signals.getD []
    support := (tech.support_resistance.getD emptySRRec).nearest_support
    resistance := (tech.support_resistance.getD emptySRRec).nearest_resistance }

/-! ### Score look-up tables (`dict.get(key, 0)` in `_calculate_aggregate_scores`) -/

def profit_map (s : String) : ℤ :=
  if s = "Strong" then 20 else if s = "Good" then 15
  else if s = "Moderate" then 5 else if s = "Weak" then -10 else 0

def val_map (s : String) : ℤ :=
  if s = "Undervalued (PEG < 1)" then 20 else if s = "Attractively valued" then 15
  else if s = "Fairly valued" then 5 else if s = "Premium valuation" then -5
  else if s = "Expensive" then -15 else 0

def health_map (s : String) : ℤ :=
  if s = "Strong" then 15 else if s = "Healthy" then 10
  else if s = "Moderate" then 0 else if s = "Needs Attention" then -15 else 0

def growth_map (s : String) : ℤ :=
  if s = "High Growth" then 15 else if s = "Moderate Growth" then 10
  else if s = "Low Growth" then 0 else if s = "Declining" then -15 else 0

def trend_map (s : String) : ℤ :=
  if s = "Strong Bullish" then 25 else if s = "Bullish" then 15
  else if s = "Neutral" then 0 else if s = "Bearish" then -20 else 0

def signal_map (s : String) : ℤ :=
  if s = "Bullish" then 15 else if s = "Neutral" then 0
  else if s = "Bearish" then -15 else 0

/-! ### Exact model of the IEEE-754 double computation in the overall score

`int(fund_score * 0.6 + tech_score * 0.4)` evaluates in double precision.
Every value arising in it is a dyadic rational `man / 2^exp`; a double
operation computes the exact dyadic result and rounds its significand to 53
bits (round to nearest, ties to even).  That is modelled exactly below; no
overflow or subnormal handling is needed, since the scores are bounded. -/

/-- A dyadic rational `man / 2^exp`. -/
structure Dyadic where
  man : ℤ
  exp : ℕ
deriving DecidableEq

/-- The right-shift needed to bring `n` down to 53 significant bits, i.e.
`max 0 (bitlen n - 53)`, written as a comparison chain so the kernel
evaluates it cheaply.  Sound for `n < 2^61`, which covers every mantissa
arising from scores in `[0, 100]`. -/
def shift53 (n : ℕ) : ℕ :=
  if n < 2 ^ 53 then 0 else if n < 2 ^ 54 then 1 else if n < 2 ^ 55 then 2
  else if n < 2 ^ 56 then 3 else if n < 2 ^ 57 then 4 else if n < 2 ^ 58 then 5
  else if n < 2 ^ 59 then 6 else if n < 2 ^ 60 then 7 else 8

/-- Round a natural mantissa down to at most 53 bits, to nearest, ties to
even; returns the rounded mantissa and the right-shift applied. -/
def round53 (n : ℕ) : ℕ × ℕ :=
  let s := shift53 n
  if s = 0 then (n, 0)
  else
    let q := n / 2 ^ s
    let r := n % 2 ^ s
    let half := 2 ^ (s - 1)
    (if r < half then q else if half < r then q + 1
     else if q % 2 = 0 then q else q + 1, s)

/-- Round a dyadic rational to the nearest IEEE-754 double. -/
def flD (x : Dyadic) : Dyadic :=
  let p := round53 x.man.natAbs
  ⟨if x.man < 0 then -(p.1 : ℤ) else (p.1 : ℤ), x.exp - p.2⟩

/-- Exact sum of two dyadic rationals. -/
def addD (x y : Dyadic) : Dyadic :=
  let e := max x.exp y.exp
  ⟨x.man * ((2 ^ (e - x.exp) : ℕ) : ℤ) + y.man * ((2 ^ (e - y.exp) : ℕ) : ℤ), e⟩

/-- Python `int()` (truncation toward zero) of a dyadic rational. -/
def truncD (x : Dyadic) : ℤ :=
  if x.man < 0 then -((x.man.natAbs / 2 ^ x.exp : ℕ) : ℤ)
  else ((x.man.natAbs / 2 ^ x.exp : ℕ) : ℤ)

/-- Significand of the double nearest to the literal `0.6` (value `float06man / 2^53`). -/
def float06man : ℤ := 5404319552844595

/-- Significand of the double nearest to the literal `0.4` (value `float04man / 2^53`). -/
def float04man : ℤ := 3602879701896397

/-- `int(fund_score * 0.6 + tech_score * 0.4)` as evaluated in double
precision: both products are rounded to doubles, their sum is rounded to a
double, and the result is truncated toward zero. -/
def overall_of (fund_score tech_score : ℤ) : ℤ :=
  truncD (flD (addD (flD ⟨fund_score * float06man, 53⟩) (flD ⟨tech_score * float04man, 53⟩)))

/-! ### Aggregate scores (`_calculate_aggregate_scores`) -/

structure ScoreSet where
  fundamental_score : ℤ
  technical_score : ℤ
  overall_score : ℤ
deriving DecidableEq

def calculate_aggregate_scores (fundamental : FundamentalSignals)
    (technical : TechnicalSignals) (_market : MarketSignals) : ScoreSet :=
  let fund_score : ℤ := 50 + profit_map fundamental.profitability
    + val_map fundamental.valuation + health_map fundamental.financial_health
    + growth_map fundamental.growth
  let fund_score := max 0 (min 100 fund_score)
  let tech_score : ℤ := 50 + trend_map technical.trend
    + signal_map technical.overall_signal
    + (technical.bullish_signals.length : ℤ) * 3
    - (technical.bearish_signals.length : ℤ) * 3
  let tech_score := max 0 (min 100 tech_score)
  { fundamental_score := fund_score
    technical_score := tech_score
    overall_score := overall_of fund_score tech_score }

/-! ### Recommendation (`_generate_recommendation`) -/

structure Recommendation where
  action : String
  description : String
  score : ℤ
deriving DecidableEq

def generate_recommendation (scores : ScoreSet) : Recommendation :=
  let overall := scores.overall_score
  if overall ≥ 75 then
    ⟨"Strong Buy", "Excellent fundamentals and favorable technical setup", overall⟩
  else if overall ≥ 60 then
    ⟨"Buy", "Good investment opportunity with positive outlook", overall⟩
  else if overall ≥ 45 then
    ⟨"Hold", "Maintain existing positions, wait for better entry", overall⟩
  else if overall ≥ 30 then
    ⟨"Reduce", "Consider reducing exposure, elevated risks", overall⟩
  else
    ⟨"Sell", "Unfavorable outlook, consider exiting position", overall⟩

/-! ### Decimal rounding (Python `round(x, d)`, half to even; float literals
such as `0.95` and `1.1` are embedded as the exact decimals they denote) -/

/-- Round a rational to the nearest integer, ties to even. -/
def roundHE (y : ℚ) : ℤ :=
  if y - ⌊y⌋ < 1/2 then ⌊y⌋
  else if (1/2 : ℚ) < y - ⌊y⌋ then ⌊y⌋ + 1
  else if ⌊y⌋ % 2 = 0 then ⌊y⌋ else ⌊y⌋ + 1

/-- Python `round(x, d)`: round to `d` decimal places, ties to even. -/
def pyround (x : ℚ) (d : ℕ) : ℚ := (roundHE (x * 10 ^ d) : ℚ) / 10 ^ d

/-! ### Target price (`_calculate_target_price`) -/

structure TargetPrice where
  low : ℚ
  mid : ℚ
  high : ℚ
  upside_percent : ℚ
deriving DecidableEq

/-- `market_data.get('data', {}).get('price_data', {}).get('current_price', 0)`. -/
def market_current_price (market_data : Env MarketPayload) : ℚ :=
  ((market_data.data.getD emptyMarketPayload).price_data.getD emptyPriceData).current_price.getD 0

/-- `technical.get('data', {}).get('support_resistance', {}).get('nearest_resistance')`. -/
def tech_nearest_resistance (technical : Env TechData) : Option ℚ :=
  ((technical.data.getD emptyTechData).support_resistance.getD emptySRRec).nearest_resistance

/-- `fundamental.get('data', {}).get('valuation', {}).get('pe_ratio')`. -/
def fund_pe_ratio (fundamental : Env FundData) : Option ℚ :=
  ((fundamental.data.getD emptyFundData).valuation.getD emptyValuationRec).pe_ratio

/-- `fundamental.get('data', {}).get('growth', {}).get('revenue_growth')`. -/
def fund_revenue_growth (fundamental : Env FundData) : Option ℚ :=
  ((fundamental.data.getD emptyFundData).growth.getD emptyGrowthRec).revenue_growth

def calculate_target_price (market_data : Env MarketPayload)
    (fundamental : Env FundData) (technical : Env TechData) : TargetPrice :=
  let current_price := market_current_price market_data
  if current_price = 0 then ⟨0, 0, 0, 0⟩
  else
    let resistance := (tech_nearest_resistance technical).getD (current_price * 1.1)
    let pe := fund_pe_ratio fundamental
    let growth := fund_revenue_growth fundamental
    -- `if pe and growth and growth > 0`: `None` and `0` are falsy in Python
    let target_mid :=
      match pe, growth with
      | some p, some g =>
          if p ≠ 0 ∧ g ≠ 0 ∧ 0 < g then
            let fair_pe := min (p * 1.2) 40
            if 0 < p then current_price * (fair_pe / p) else current_price
          else resistance
      | _, _ => resistance
    let target_low := current_price * 0.95
    let target_high := min (target_mid * 1.1) (resistance * 1.05)
    let upside := (target_mid - current_price) / current_price * 100
    ⟨pyround target_low 2, pyround target_mid 2, pyround target_high 2, pyround upside 1⟩

/-! ### Risk assessment (`_assess_risk`) -/

structure RiskAssessment where
  level : String
  score : ℤ
  factors : List String
deriving DecidableEq

/-- `fund.get('financial_health', {}).get('debt_to_equity')`. -/
def fund_debt_to_equity (fundamental : Env FundData) : Option ℚ :=
  ((fundamental.data.getD emptyFundData).financial_health.getD emptyHealthRec).debt_to_equity

/-- `fund.get('profitability', {}).get('assessment')`. -/
def fund_profit_assessment (fundamental : Env FundData) : Option String :=
  ((fundamental.data.getD emptyFundData).profitability.getD emptyProfitabilityRec).assessment

/-- `fund.get('growth', {}).get('assessment')`. -/
def fund_growth_assessment (fundamental : Env FundData) : Option String :=
  ((fundamental.data.getD emptyFundData).growth.getD emptyGrowthRec).assessment

/-- `tech.get('indicators', {}).get('atr', {}).get('volatility')`. -/
def tech_atr_volatility (technical : Env TechData) : Option String :=
  (((technical.data.getD emptyTechData).indicators.getD emptyIndicatorsRec).atr.getD emptyAtrRec).volatility

/-- `tech.get('trend', {}).get('overall_trend')`. -/
def tech_overall_trend (technical : Env TechData) : Option String :=
  ((technical.data.getD emptyTechData).trend.getD emptyTrendRec).overall_trend

/-- `if debt and debt > 1`: `None` and `0` are falsy in Python. -/
def debt_risky (debt : Option ℚ) : Bool :=
  match debt with
  | some d => decide (d ≠ 0) && decide (1 < d)
  | none => false

def assess_risk (fundamental : Env FundData) (technical : Env TechData) : RiskAssessment :=
  let debt := fund_debt_to_equity fundamental
  let profit := fund_profit_assessment fundamental
  let growth := fund_growth_assessment fundamental
  let volatility := tech_atr_volatility technical
  let trend := tech_overall_trend technical
  let acc : List String × ℤ := ([], 0)
  let acc := if debt_risky debt then (acc.1 ++ ["High debt levels"], acc.2 + 20) else acc
  let acc := if profit = some "Weak" ∨ profit = some "Moderate" then
    (acc.1 ++ ["Weak profitability"], acc.2 + 15) else acc
  let acc := if growth = some "Declining" then
    (acc.1 ++ ["Declining growth"], acc.2 + 15) else acc
  let acc := if volatility = some "High Volatility" then
    (acc.1 ++ ["High price volatility"], acc.2 + 15) else acc
  let acc := if trend = some "Bearish" then
    (acc.1 ++ ["Bearish price trend"], acc.2 + 20) else acc
  let level := if acc.2 ≥ 50 then "High" else if acc.2 ≥ 30 then "Moderate" else "Low"
  ⟨level, acc.2, acc.1⟩

/-! ### Key factor collection (`_collect_bullish_factors` / `_collect_bearish_factors`) -/

def collect_bullish_factors (fundamental : FundamentalSignals)
    (technical : TechnicalSignals) : List String :=
  let factors : List String := []
  let factors := if fundamental.profitability = "Strong" ∨ fundamental.profitability = "Good"
    then factors ++ ["Strong profitability"] else factors
  let factors := if fundamental.valuation = "Undervalued (PEG < 1)" ∨
      fundamental.valuation = "Attractively valued"
    then factors ++ ["Attractive valuation"] else factors
  let factors := if fundamental.growth = "High Growth" ∨ fundamental.growth = "Moderate Growth"
    then factors ++ ["Growing revenue"] else factors
  let factors := if fundamental.financial_health = "Strong" ∨
      fundamental.financial_health = "Healthy"
    then factors ++ ["Healthy balance sheet"] else factors
  let factors := factors ++ technical.bullish_signals.take 3
  factors.take 5

def collect_bearish_factors (fundamental : FundamentalSignals)
    (technical : TechnicalSignals) : List String :=
  let factors : List String := []
  let factors := if fundamental.profitability = "Weak"
    then factors ++ ["Weak profitability"] else factors
  let factors := if fundamental.valuation = "Expensive"
    then factors ++ ["Expensive valuation"] else factors
  let factors := if fundamental.growth = "Declining"
    then factors ++ ["Revenue decline"] else factors
  let factors := if fundamental.financial_health = "Needs Attention"
    then factors ++ ["Balance sheet concerns"] else factors
  let factors := factors ++ technical.bearish_signals.take 3
  factors.take 5

/-! ### Weighted confidence (`_calculate_weighted_confidence`) -/

def calculate_weighted_confidence (market_conf fund_conf tech_conf : ℚ) : ℚ :=
  pyround (market_conf * 0.2 + fund_conf * 0.5 + tech_conf * 0.3) 2

/-- The confidence the aggregator's `analyze` reports:
`_calculate_weighted_confidence` applied to the three upstream confidences,
each defaulting to `0.5` when the envelope lacks the field. -/
def analyze_confidence (market_data : Env MarketPayload) (fundamental : Env FundData)
    (technical : Env TechData) : ℚ :=
  calculate_weighted_confidence (market_data.confidence.getD 0.5)
    (fundamental.confidence.getD 0.5) (technical.confidence.getD 0.5)

/-! ### Pipeline orchestration (`run_analysis_pipeline`) -/

inductive AgentCall where
  | market
  | fundamental
  | technical
  | strategy
deriving DecidableEq

/-- The dictionary `run_analysis_pipeline` returns: the failure branch carries
only `error` and `status`; the success branch carries the ticker, company
name, the four sub-results and `status`.  `R` abstracts the strategy agent's
output envelope, which the orchestrator never inspects. -/
structure PipelineResult (R : Type) where
  ticker : Option String
  company_name : Option String
  market_data : Option (Env MarketPayload)
  fundamental_analysis : Option (Env FundData)
  technical_analysis : Option (Env TechData)
  recommendation : Option R
  error : Option String
  status : String
deriving DecidableEq

/-- Python `f"...{x}"` on an optional string (`str(None) = "None"`). -/
def pystr : Option String → String
  | some s => s
  | none => "None"

/-- The orchestrator, parameterised by the four agents; alongside the result
it returns the sequence of agent invocations it performed, in order. -/
def run_analysis_pipeline {R : Type} (ticker : String)
    (market_agent : String → Env MarketPayload)
    (fundamental_agent : String → Env FundData)
    (technical_agent : String → Env TechData)
    (strategy_agent : String → Env MarketPayload → Env FundData → Env TechData → R) :
    PipelineResult R × List AgentCall :=
  let market_data := market_agent ticker
  let calls := [AgentCall.market]
  if market_data.status = some "error" then
    (⟨none, none, none, none, none, none,
      some ("Failed to fetch market data: " ++ pystr market_data.error), "failed"⟩, calls)
  else
    let company_name :=
      ((market_data.data.getD emptyMarketPayload).basic_info.getD emptyBasicInfo).name.getD ticker
    let fundamental_analysis := fundamental_agent ticker
    let technical_analysis := technical_agent ticker
    let calls := calls ++ [AgentCall.fundamental, AgentCall.technical]
    let recommendation := strategy_agent ticker market_data fundamental_analysis technical_analysis
    let calls := calls ++ [AgentCall.strategy]
    (⟨some ticker, some company_name, some market_data, some fundamental_analysis,
      some technical_analysis, some recommendation, none, "success"⟩, calls)

/-! ### Spec-side definitions

These follow the specification's words, to be compared with the definitions
translated from the source above. -/

/-- Clamp an integer to `[0, 100]`. -/
def clamp0_100 (x : ℤ) : ℤ := max 0 (min 100 x)

/-- Spec: profitability Strong +20, Good +15, Moderate +5, Weak −10, other 0. -/
def spec_profit_delta (s : String) : ℤ :=
  if s = "Strong" then 20 else if s = "Good" then 15
  else if s = "Moderate" then 5 else if s = "Weak" then -10 else 0

/-- Spec: valuation "Undervalued (PEG < 1)" +20, "Attractively valued" +15,
"Fairly valued" +5, "Premium valuation" −5, "Expensive" −15, other 0. -/
def spec_val_delta (s : String) : ℤ :=
  if s = "Undervalued (PEG < 1)" then 20 else if s = "Attractively valued" then 15
  else if s = "Fairly valued" then 5 else if s = "Premium valuation" then -5
  else if s = "Expensive" then -15 else 0

/-- Spec: financial health Strong +15, Healthy +10, Moderate 0,
"Needs Attention" −15, other 0. -/
def spec_health_delta (s : String) : ℤ :=
  if s = "Strong" then 15 else if s = "Healthy" then 10
  else if s = "Moderate" then 0 else if s = "Needs Attention" then -15 else 0

/-- Spec: growth "High Growth" +15, "Moderate Growth" +10, "Low Growth" 0,
Declining −15, other 0. -/
def spec_growth_delta (s : String) : ℤ :=
  if s = "High Growth" then 15 else if s = "Moderate Growth" then 10
  else if s = "Low Growth" then 0 else if s = "Declining" then -15 else 0

/-- Spec: trend Strong Bullish +25, Bullish +15, Neutral 0, Bearish −20, other 0. -/
def spec_trend_delta (s : String) : ℤ :=
  if s = "Strong Bullish" then 25 else if s = "Bullish" then 15
  else if s = "Neutral" then 0 else if s = "Bearish" then -20 else 0

/-- Spec: overall signal Bullish +15, Neutral 0, Bearish −15, other 0. -/
def spec_signal_delta (s : String) : ℤ :=
  if s = "Bullish" then 15 else if s = "Neutral" then 0
  else if s = "Bearish" then -15 else 0

/-- Spec: action by descending thresholds on the overall score, first match
wins: ≥75 Strong Buy, ≥60 Buy, ≥45 Hold, ≥30 Reduce, else Sell. -/
def spec_action (s : ℤ) : String :=
  if 75 ≤ s then "Strong Buy" else if 60 ≤ s then "Buy"
  else if 45 ≤ s then "Hold" else if 30 ≤ s then "Reduce" else "Sell"

/-- The fixed rationale attached to each action. -/
def spec_rationale (a : String) : String :=
  if a = "Strong Buy" then "Excellent fundamentals and favorable technical setup"
  else if a = "Buy" then "Good investment opportunity with positive outlook"
  else if a = "Hold" then "Maintain existing positions, wait for better entry"
  else if a = "Reduce" then "Consider reducing exposure, elevated risks"
  else "Unfavorable outlook, consider exiting position"

/-- Rank of an action on the Sell < Reduce < Hold < Buy < Strong Buy scale. -/
def action_rank (a : String) : ℕ :=
  if a = "Strong Buy" then 4 else if a = "Buy" then 3
  else if a = "Hold" then 2 else if a = "Reduce" then 1 else 0

/-- Spec: the four bullish fundamental-condition strings, in priority order. -/
def spec_bullish_fund_factors (f : FundamentalSignals) : List String :=
  (if f.profitability = "Strong" ∨ f.profitability = "Good"
    then ["Strong profitability"] else []) ++
  (if f.valuation = "Undervalued (PEG < 1)" ∨ f.valuation = "Attractively valued"
    then ["Attractive valuation"] else []) ++
  (if f.growth = "High Growth" ∨ f.growth = "Moderate Growth"
    then ["Growing revenue"] else []) ++
  (if f.financial_health = "Strong" ∨ f.financial_health = "Healthy"
    then ["Healthy balance sheet"] else [])

/-- Spec: the four bearish fundamental-condition strings, in priority order. -/
def spec_bearish_fund_factors (f : FundamentalSignals) : List String :=
  (if f.profitability = "Weak" then ["Weak profitability"] else []) ++
  (if f.valuation = "Expensive" then ["Expensive valuation"] else []) ++
  (if f.growth = "Declining" then ["Revenue decline"] else []) ++
  (if f.financial_health = "Needs Attention" then ["Balance sheet concerns"] else [])

/-! ### C1, C2: fundamental and technical score refinements -/

/-- C1: for every fundamental-signal mapping, the fundamental score is the
clamp to [0,100] of 50 plus the four independent table deltas (profitability,
valuation, financial health, growth); in particular, labels Strong /
"Attractively valued" / Strong / "Moderate Growth" score 100. -/
theorem C1_fundamental_score (fs : FundamentalSignals) (ts : TechnicalSignals)
    (ms : MarketSignals) :
    (calculate_aggregate_scores fs ts ms).fundamental_score =
      clamp0_100 (50 + spec_profit_delta fs.profitability + spec_val_delta fs.valuation
        + spec_health_delta fs.financial_health + spec_growth_delta fs.growth) ∧
    (calculate_aggregate_scores
      ⟨"Strong", "Attractively valued", "Strong", "Moderate Growth", none, none, none, none⟩
      ts ms).fundamental_score = 100 := by
  constructor
  · rfl
  · rfl

/-- C2: for every technical-signal mapping, the technical score is the clamp
to [0,100] of 50 plus the trend delta, plus the overall-signal delta, plus 3
per bullish signal, minus 3 per bearish signal; in particular trend Bearish,
overall signal Bearish, no bullish and two bearish signals score 9. -/
theorem C2_technical_score (fs : FundamentalSignals) (ts : TechnicalSignals)
    (ms : MarketSignals) :
    (calculate_aggregate_scores fs ts ms).technical_score =
      clamp0_100 (50 + spec_trend_delta ts.trend + spec_signal_delta ts.overall_signal
        + 3 * (ts.bullish_signals.length : ℤ) - 3 * (ts.bearish_signals.length : ℤ)) ∧
    (calculate_aggregate_scores fs
      ⟨"Bearish", "Neutral", "Neutral", "Bearish", [], ["s1", "s2"], none, none⟩
      ms).technical_score = 9 := by
  constructor
  · show clamp0_100 _ = clamp0_100 _
    congr 1
    have h1 : trend_map ts.trend = spec_trend_delta ts.trend := rfl
    have h2 : signal_map ts.overall_signal = spec_signal_delta ts.overall_signal := rfl
    rw [h1, h2]
    ring
  · rfl

/-! ### C3: the overall score -/

/-- Single-point check used to settle C3 over the whole `[0,100] × [0,100]` box. -/
def overallCheck (f t : ℕ) : Bool :=
  let o := overall_of f t
  let e : ℤ := ((6 * f + 4 * t) / 10 : ℕ)
  (o == e || o == e - 1) && decide (0 ≤ o) && decide (o ≤ 100)

set_option maxRecDepth 100000 in
set_option maxHeartbeats 2000000 in
lemma overall_box : ∀ f : ℕ, f < 101 → ∀ t : ℕ, t < 101 → overallCheck f t = true := by
  decide

lemma floor_exact_overall (f t : ℕ) :
    ⌊(f : ℚ) * 0.6 + (t : ℚ) * 0.4⌋ = (((6 * f + 4 * t) / 10 : ℕ) : ℤ) := by
  have h : (f : ℚ) * 0.6 + (t : ℚ) * 0.4 = (((6 * f + 4 * t : ℕ) : ℤ) : ℚ) / ((10 : ℕ) : ℚ) := by
    push_cast
    ring
  rw [h, Rat.floor_intCast_div_natCast]
  omega

/-- C3 (amended): for all integer fundamental and technical scores in
`[0,100]`, the overall score — `int(fund_score * 0.6 + tech_score * 0.4)`
evaluated in double precision — equals the floor over exact arithmetic or
that floor minus one (double rounding loses one unit on 32 of the 10201
pairs), and always lies in `[0,100]`; and the aggregator's overall score is
exactly this function of its two clamped scores. -/
theorem C3_overall_score :
    (∀ f t : ℤ, 0 ≤ f → f ≤ 100 → 0 ≤ t → t ≤ 100 →
      (overall_of f t = ⌊(f : ℚ) * 0.6 + (t : ℚ) * 0.4⌋ ∨
       overall_of f t = ⌊(f : ℚ) * 0.6 + (t : ℚ) * 0.4⌋ - 1) ∧
      0 ≤ overall_of f t ∧ overall_of f t ≤ 100) ∧
    (∀ fs ts ms, (calculate_aggregate_scores fs ts ms).overall_score =
      overall_of (calculate_aggregate_scores fs ts ms).fundamental_score
        (calculate_aggregate_scores fs ts ms).technical_score) := by
  constructor
  · intro f t hf0 hf1 ht0 ht1
    obtain ⟨fn, rfl⟩ := Int.eq_ofNat_of_zero_le hf0
    obtain ⟨tn, rfl⟩ := Int.eq_ofNat_of_zero_le ht0
    have hfn : fn < 101 := by exact_mod_cast Int.lt_add_one_iff.mpr hf1
    have htn : tn < 101 := by exact_mod_cast Int.lt_add_one_iff.mpr ht1
    have hc := overall_box fn hfn tn htn
    rw [overallCheck] at hc
    simp only [Bool.and_eq_true, Bool.or_eq_true, beq_iff_eq, decide_eq_true_eq] at hc
    simp only [Int.cast_natCast]
    rw [floor_exact_overall fn tn]
    exact ⟨hc.1.1, hc.1.2, hc.2⟩
  · intro fs ts ms
    rfl

/-- C3 as stated is false: at fundamental score 6 and technical score 1 the
code computes `int(6*0.6 + 1*0.4) = 3` in double precision, while the floor
over exact arithmetic is 4. -/
theorem C3_counterexample :
    overall_of 6 1 = 3 ∧ ⌊(6 : ℚ) * 0.6 + (1 : ℚ) * 0.4⌋ = 4 ∧
    overall_of 6 1 ≠ ⌊(6 : ℚ) * 0.6 + (1 : ℚ) * 0.4⌋ := by
  have h1 : overall_of 6 1 = 3 := by decide
  have h2 : ⌊(6 : ℚ) * 0.6 + (1 : ℚ) * 0.4⌋ = 4 := by norm_num
  refine ⟨h1, h2, ?_⟩
  rw [h1, h2]
  decide

/-- Witness for C3: the amended statement applied at scores 50 and 50. -/
theorem C3_witness :
    (overall_of 50 50 = ⌊(50 : ℚ) * 0.6 + (50 : ℚ) * 0.4⌋ ∨
     overall_of 50 50 = ⌊(50 : ℚ) * 0.6 + (50 : ℚ) * 0.4⌋ - 1) ∧
    0 ≤ overall_of 50 50 ∧ overall_of 50 50 ≤ 100 :=
  C3_overall_score.1 50 50 (by decide) (by decide) (by decide) (by decide)

/-! ### C4: action mapping -/

/-- C4: the action is a deterministic function of the overall score alone,
assigned by descending thresholds 75/60/45/30 with first match winning, each
action carries its fixed rationale string, the action is monotonically
non-decreasing in the overall score, and score 62 yields "Buy". -/
theorem C4_recommendation :
    (∀ s : ScoreSet,
      (generate_recommendation s).action = spec_action s.overall_score ∧
      (generate_recommendation s).description =
        spec_rationale ((generate_recommendation s).action) ∧
      (generate_recommendation s).score = s.overall_score) ∧
    (∀ a b : ℤ, a ≤ b → action_rank (spec_action a) ≤ action_rank (spec_action b)) ∧
    spec_action 62 = "Buy" := by
  refine ⟨?_, ?_, by decide⟩
  · intro s
    simp only [generate_recommendation, spec_action, ge_iff_le]
    split_ifs <;> exact ⟨rfl, by simp [spec_rationale], rfl⟩
  · intro a b hab
    simp only [spec_action]
    split_ifs <;> first | decide | (exfalso; omega)

/-- Witness for C4: monotonicity applied at scores 40 and 62. -/
theorem C4_witness : action_rank (spec_action 40) ≤ action_rank (spec_action 62) :=
  C4_recommendation.2.1 40 62 (by decide)

/-! ### C5: risk assessment -/

/-- C5: for every combination of inputs the risk score is the sum of the
weights of the matched conditions (debt 20, weak/moderate profitability 15,
declining growth 15, high ATR volatility 15, bearish trend 20), the factor
list contains exactly the matched factor strings in the fixed evaluation
order, and the level is High iff score ≥ 50, Moderate iff 30 ≤ score < 50,
and Low otherwise. -/
theorem C5_risk (fund : Env FundData) (tech : Env TechData) :
    (assess_risk fund tech).score =
      (if debt_risky (fund_debt_to_equity fund) then 20 else 0) +
      (if fund_profit_assessment fund = some "Weak" ∨
          fund_profit_assessment fund = some "Moderate" then 15 else 0) +
      (if fund_growth_assessment fund = some "Declining" then 15 else 0) +
      (if tech_atr_volatility tech = some "High Volatility" then 15 else 0) +
      (if tech_overall_trend tech = some "Bearish" then 20 else 0) ∧
    (assess_risk fund tech).factors =
      (if debt_risky (fund_debt_to_equity fund) then ["High debt levels"] else []) ++
      (if fund_profit_assessment fund = some "Weak" ∨
          fund_profit_assessment fund = some "Moderate" then ["Weak profitability"] else []) ++
      (if fund_growth_assessment fund = some "Declining" then ["Declining growth"] else []) ++
      (if tech_atr_volatility tech = some "High Volatility"
        then ["High price volatility"] else []) ++
      (if tech_overall_trend tech = some "Bearish" then ["Bearish price trend"] else []) ∧
    ((assess_risk fund tech).level = "High" ↔ 50 ≤ (assess_risk fund tech).score) ∧
    ((assess_risk fund tech).level = "Moderate" ↔
      30 ≤ (assess_risk fund tech).score ∧ (assess_risk fund tech).score < 50) ∧
    ((assess_risk fund tech).level = "Low" ↔ (assess_risk fund tech).score < 30) := by
  by_cases h1 : debt_risky (fund_debt_to_equity fund) = true <;>
  by_cases h2 : fund_profit_assessment fund = some "Weak" ∨
    fund_profit_assessment fund = some "Moderate" <;>
  by_cases h3 : fund_growth_assessment fund = some "Declining" <;>
  by_cases h4 : tech_atr_volatility tech = some "High Volatility" <;>
  by_cases h5 : tech_overall_trend tech = some "Bearish" <;>
  simp [assess_risk, h1, h2, h3, h4, h5]

/-! ### C6: target price -/

/-- The mid-target as the amended claim words it: when a nonzero trailing
P/E and a strictly positive revenue growth are both available, the
PEG-style target `current × (min(P/E × 1.2, 40) / P/E)` for positive P/E
and the current price itself for negative P/E; otherwise the nearest
resistance, defaulting to `current × 1.1`. -/
def spec_mid_target (market : Env MarketPayload) (fund : Env FundData)
    (tech : Env TechData) : ℚ :=
  let cp := market_current_price market
  match fund_pe_ratio fund, fund_revenue_growth fund with
  | some p, some g =>
      if p ≠ 0 ∧ g ≠ 0 ∧ 0 < g then
        if 0 < p then cp * (min (p * 1.2) 40 / p) else cp
      else (tech_nearest_resistance tech).getD (cp * 1.1)
  | _, _ => (tech_nearest_resistance tech).getD (cp * 1.1)

/-- C6 (amended): zero/absent current price yields the all-zero target;
otherwise low/mid/high are the claimed formulas rounded to 2 decimals — with
the PEG branch requiring a nonzero P/E and falling back to the current price
itself when the P/E is negative — and the upside percentage is rounded to 1
decimal. -/
theorem C6_target_price (market : Env MarketPayload) (fund : Env FundData)
    (tech : Env TechData) :
    (market_current_price market = 0 →
      calculate_target_price market fund tech = ⟨0, 0, 0, 0⟩) ∧
    (market_current_price market ≠ 0 →
      calculate_target_price market fund tech =
        { low := pyround (market_current_price market * 0.95) 2
          mid := pyround (spec_mid_target market fund tech) 2
          high := pyround (min (spec_mid_target market fund tech * 1.1)
            ((tech_nearest_resistance tech).getD (market_current_price market * 1.1) * 1.05)) 2
          upside_percent := pyround ((spec_mid_target market fund tech -
            market_current_price market) / market_current_price market * 100) 1 }) := by
  constructor
  · intro h
    simp only [calculate_target_price, if_pos h]
  · intro h
    simp only [calculate_target_price, spec_mid_target, if_neg h]

/-- Market envelope with current price 300 used in the C6 counterexample. -/
def cex_market : Env MarketPayload :=
  ⟨some ⟨none, some ⟨some 300, none, none⟩, none, none, none⟩, none, none, none⟩

/-- Fundamental envelope with trailing P/E −5 and revenue growth 10 used in
the C6 counterexample. -/
def cex_fund : Env FundData :=
  ⟨some ⟨none, some ⟨none, some (-5)⟩, none, some ⟨none, some 10⟩⟩, none, none, none⟩

/-- Technical envelope with nearest resistance 301 used in the C6 counterexample. -/
def cex_tech : Env TechData :=
  ⟨some ⟨none, none, none, some ⟨none, some 301⟩⟩, none, none, none⟩

/-- C6 as stated is false on two counts: with current price 300, P/E −5 and
revenue growth 10 the code returns mid-target 300, not the claimed
`300 × (min(−5 × 1.2, 40) / −5) = 360`; and with current price 300 and
resistance 301 the returned upside percentage is the rounded 0.3, not the
claimed exact `(301 − 300)/300 × 100 = 1/3`. -/
theorem C6_counterexample :
    (calculate_target_price cex_market cex_fund emptyEnv).mid = 300 ∧
    (300 : ℚ) * (min ((-5 : ℚ) * 1.2) 40 / (-5)) = 360 ∧
    (calculate_target_price cex_market cex_fund emptyEnv).mid ≠
      300 * (min ((-5 : ℚ) * 1.2) 40 / (-5)) ∧
    (calculate_target_price cex_market emptyEnv cex_tech).upside_percent = 3 / 10 ∧
    ((301 : ℚ) - 300) / 300 * 100 = 1 / 3 ∧
    (calculate_target_price cex_market emptyEnv cex_tech).upside_percent ≠
      (301 - 300) / 300 * 100 := by
  have hmin : min ((-5 : ℚ) * 1.2) 40 = -6 := by norm_num
  have hmid : (calculate_target_price cex_market cex_fund emptyEnv).mid = 300 := by
    simp only [calculate_target_price, cex_market, cex_fund, market_current_price,
      fund_pe_ratio, fund_revenue_growth, tech_nearest_resistance, emptyEnv,
      emptyMarketPayload, emptyPriceData, emptyFundData, emptyValuationRec,
      emptyGrowthRec, emptyTechData, emptySRRec, Option.getD]
    norm_num [pyround, roundHE]
  have hup : (calculate_target_price cex_market emptyEnv cex_tech).upside_percent = 3 / 10 := by
    simp only [calculate_target_price, cex_market, cex_tech, market_current_price,
      fund_pe_ratio, fund_revenue_growth, tech_nearest_resistance, emptyEnv,
      emptyMarketPayload, emptyPriceData, emptyFundData, emptyValuationRec,
      emptyGrowthRec, emptyTechData, emptySRRec, Option.getD]
    norm_num [pyround, roundHE]
  refine ⟨hmid, by rw [hmin]; norm_num, ?_, hup, by norm_num, ?_⟩
  · rw [hmid, hmin]
    norm_num
  · rw [hup]
    norm_num

/-- Witness for C6: the amended statement's zero-price branch applied to
empty envelopes. -/
theorem C6_witness : calculate_target_price emptyEnv emptyEnv emptyEnv = ⟨0, 0, 0, 0⟩ :=
  (C6_target_price emptyEnv emptyEnv emptyEnv).1 rfl

/-! ### C7: pipeline failure propagation -/

/-- C7: for every ticker and every behaviour of the four agents, if the
market-data envelope has status "error" the pipeline returns status "failed"
with the error message and only the market agent was invoked; in every other
case — including fundamental or technical envelopes with status "error" —
it returns status "success" carrying all four sub-results, with all four
agents invoked in order. -/
theorem C7_pipeline {R : Type} (ticker : String)
    (market_agent : String → Env MarketPayload)
    (fundamental_agent : String → Env FundData)
    (technical_agent : String → Env TechData)
    (strategy_agent : String → Env MarketPayload → Env FundData → Env TechData → R) :
    ((market_agent ticker).status = some "error" →
      (run_analysis_pipeline ticker market_agent fundamental_agent technical_agent
        strategy_agent).1.status = "failed" ∧
      (run_analysis_pipeline ticker market_agent fundamental_agent technical_agent
        strategy_agent).1.error =
        some ("Failed to fetch market data: " ++ pystr (market_agent ticker).error) ∧
      (run_analysis_pipeline ticker market_agent fundamental_agent technical_agent
        strategy_agent).2 = [AgentCall.market]) ∧
    ((market_agent ticker).status ≠ some "error" →
      (run_analysis_pipeline ticker market_agent fundamental_agent technical_agent
        strategy_agent).1.status = "success" ∧
      (run_analysis_pipeline ticker market_agent fundamental_agent technical_agent
        strategy_agent).1.market_data = some (market_agent ticker) ∧
      (run_analysis_pipeline ticker market_agent fundamental_agent technical_agent
        strategy_agent).1.fundamental_analysis = some (fundamental_agent ticker) ∧
      (run_analysis_pipeline ticker market_agent fundamental_agent technical_agent
        strategy_agent).1.technical_analysis = some (technical_agent ticker) ∧
      (run_analysis_pipeline ticker market_agent fundamental_agent technical_agent
        strategy_agent).1.recommendation = some (strategy_agent ticker (market_agent ticker)
          (fundamental_agent ticker) (technical_agent ticker)) ∧
      (run_analysis_pipeline ticker market_agent fundamental_agent technical_agent
        strategy_agent).2 = [AgentCall.market, AgentCall.fundamental,
          AgentCall.technical, AgentCall.strategy]) := by
  constructor
  · intro h
    simp [run_analysis_pipeline, if_pos h]
  · intro h
    simp [run_analysis_pipeline, if_neg h]

/-- Witness for C7: a market agent that reports an error makes the pipeline
fail with only the market step executed. -/
theorem C7_witness :
    (run_analysis_pipeline "TCS" (fun _ => ⟨none, some "error", some "boom", none⟩)
      (fun _ => emptyEnv) (fun _ => emptyEnv) (fun _ _ _ _ => (0 : ℕ))).1.status = "failed" ∧
    (run_analysis_pipeline "TCS" (fun _ => ⟨none, some "error", some "boom", none⟩)
      (fun _ => emptyEnv) (fun _ => emptyEnv) (fun _ _ _ _ => (0 : ℕ))).1.error =
      some ("Failed to fetch market data: " ++ pystr (some "boom")) ∧
    (run_analysis_pipeline "TCS" (fun _ => ⟨none, some "error", some "boom", none⟩)
      (fun _ => emptyEnv) (fun _ => emptyEnv) (fun _ _ _ _ => (0 : ℕ))).2 =
      [AgentCall.market] :=
  (C7_pipeline "TCS" (fun _ => ⟨none, some "error", some "boom", none⟩)
    (fun _ => emptyEnv) (fun _ => emptyEnv) (fun _ _ _ _ => (0 : ℕ))).1 rfl

/-! ### C8: tolerance of missing fields -/

/-- C8: the aggregator's scoring is total over the embedded payloads — every
absent field defaults — and any unrecognized or absent label or signal list
contributes a neutral zero adjustment: signals whose labels are outside the
tables with no signal strings score exactly 50/50/50, extraction from empty
envelopes yields the neutral defaults, and scoring the extraction of three
empty envelopes gives fundamental score 50 and technical score 50. -/
theorem C8_missing_fields :
    (∀ fs ts ms,
      fs.profitability ∉ ["Strong", "Good", "Moderate", "Weak"] →
      fs.valuation ∉ ["Undervalued (PEG < 1)", "Attractively valued", "Fairly valued",
        "Premium valuation", "Expensive"] →
      fs.financial_health ∉ ["Strong", "Healthy", "Moderate", "Needs Attention"] →
      fs.growth ∉ ["High Growth", "Moderate Growth", "Low Growth", "Declining"] →
      ts.trend ∉ ["Strong Bullish", "Bullish", "Neutral", "Bearish"] →
      ts.overall_signal ∉ ["Bullish", "Neutral", "Bearish"] →
      ts.bullish_signals = [] → ts.bearish_signals = [] →
      calculate_aggregate_scores fs ts ms = ⟨50, 50, 50⟩) ∧
    extract_fundamental_signals emptyEnv =
      ⟨"Unknown", "Unknown", "Unknown", "Unknown", none, none, none, none⟩ ∧
    extract_technical_signals emptyEnv =
      ⟨"Neutral", "Neutral", "Neutral", "Neutral", [], [], none, none⟩ ∧
    calculate_aggregate_scores (extract_fundamental_signals emptyEnv)
      (extract_technical_signals emptyEnv) (extract_market_signals emptyEnv) =
      ⟨50, 50, 50⟩ := by
  refine ⟨?_, rfl, rfl, by decide⟩
  intro fs ts ms h1 h2 h3 h4 h5 h6 h7 h8
  simp only [List.mem_cons, List.not_mem_nil, or_false, not_or] at h1 h2 h3 h4 h5 h6
  simp only [calculate_aggregate_scores, profit_map, val_map, health_map, growth_map,
    trend_map, signal_map, h7, h8, if_neg h1.1, if_neg h1.2.1, if_neg h1.2.2.1,
    if_neg h1.2.2.2, if_neg h2.1, if_neg h2.2.1, if_neg h2.2.2.1, if_neg h2.2.2.2.1,
    if_neg h2.2.2.2.2, if_neg h3.1, if_neg h3.2.1, if_neg h3.2.2.1, if_neg h3.2.2.2,
    if_neg h4.1, if_neg h4.2.1, if_neg h4.2.2.1, if_neg h4.2.2.2, if_neg h5.1,
    if_neg h5.2.1, if_neg h5.2.2.1, if_neg h5.2.2.2, if_neg h6.1, if_neg h6.2.1,
    if_neg h6.2.2]
  decide

/-- Witness for C8: unrecognized labels and empty signal lists score 50/50/50. -/
theorem C8_witness :
    calculate_aggregate_scores ⟨"??", "??", "??", "??", none, none, none, none⟩
      ⟨"??", "??", "??", "??", [], [], none, none⟩ (extract_market_signals emptyEnv) =
      ⟨50, 50, 50⟩ :=
  C8_missing_fields.1 ⟨"??", "??", "??", "??", none, none, none, none⟩
    ⟨"??", "??", "??", "??", [], [], none, none⟩ (extract_market_signals emptyEnv)
    (by decide) (by decide) (by decide) (by decide) (by decide) (by decide) rfl rfl

/-! ### C9: weighted confidence -/

/-- C9: the aggregator's confidence is `round(0.2·market + 0.5·fundamental +
0.3·technical, 2)` with each upstream confidence defaulting to 0.5 when
absent; the weights sum to 1, and the blend maps (1,1,1) to 1 and (0,0,0)
to 0. -/
theorem C9_confidence :
    (∀ mc fc tc : ℚ, calculate_weighted_confidence mc fc tc =
      pyround (0.2 * mc + 0.5 * fc + 0.3 * tc) 2) ∧
    (0.2 : ℚ) + 0.5 + 0.3 = 1 ∧
    calculate_weighted_confidence 1 1 1 = 1 ∧
    calculate_weighted_confidence 0 0 0 = 0 ∧
    (∀ (m : Env MarketPayload) (f : Env FundData) (t : Env TechData),
      m.confidence = none → f.confidence = none → t.confidence = none →
      analyze_confidence m f t = calculate_weighted_confidence 0.5 0.5 0.5) := by
  refine ⟨?_, by norm_num, ?_, ?_, ?_⟩
  · intro mc fc tc
    unfold calculate_weighted_confidence
    congr 1
    ring
  · unfold calculate_weighted_confidence
    norm_num [pyround, roundHE]
  · unfold calculate_weighted_confidence
    norm_num [pyround, roundHE]
  · intro m f t h1 h2 h3
    simp [analyze_confidence, h1, h2, h3]

/-- Witness for C9: three envelopes lacking the confidence field all
contribute the 0.5 default. -/
theorem C9_witness :
    analyze_confidence emptyEnv emptyEnv emptyEnv = calculate_weighted_confidence 0.5 0.5 0.5 :=
  C9_confidence.2.2.2.2 emptyEnv emptyEnv emptyEnv rfl rfl rfl

/-! ### C10: factor list caps and priority order -/

/-- C10: bullish and bearish factor lists never exceed 5 entries, and each
equals the first five of: the matched fundamental-condition strings in their
fixed priority order, followed by at most 3 technical signals. -/
theorem C10_factor_caps (fs : FundamentalSignals) (ts : TechnicalSignals) :
    (collect_bullish_factors fs ts).length ≤ 5 ∧
    (collect_bearish_factors fs ts).length ≤ 5 ∧
    collect_bullish_factors fs ts =
      (spec_bullish_fund_factors fs ++ ts.bullish_signals.take 3).take 5 ∧
    collect_bearish_factors fs ts =
      (spec_bearish_fund_factors fs ++ ts.bearish_signals.take 3).take 5 := by
  have hb : collect_bullish_factors fs ts =
      (spec_bullish_fund_factors fs ++ ts.bullish_signals.take 3).take 5 := by
    unfold collect_bullish_factors spec_bullish_fund_factors
    split_ifs <;> simp
  have hr : collect_bearish_factors fs ts =
      (spec_bearish_fund_factors fs ++ ts.bearish_signals.take 3).take 5 := by
    unfold collect_bearish_factors spec_bearish_fund_factors
    split_ifs <;> simp
  exact ⟨hb ▸ List.length_take_le 5 _, hr ▸ List.length_take_le 5 _, hb, hr⟩

end FinAgent
